import Mathlib

/-!
# Verification of the e-commerce order/wallet core

Shallow embedding of the order-placement transaction
(`backend/routes/orders.js`, POST /orders), the wallet routes
(GET /wallet, PUT /wallet/admin/topup-requests/:id) and the admin
order-update route (`backend/routes/admin.js`, PUT /admin/orders/:id).

Monetary values are embedded as exact rationals (the spec fixes the
arithmetic policy — 8% tax, flat shipping — and states that computation
is full precision; JS `number` arithmetic is idealised to `ℚ`).
Stock is an `Int`, because the stock write is a Mongo `$inc` by a
negative quantity, which is not clamped at zero.
-/

namespace Ecom

/-- A catalog product: the fields read by the checkout
(`name price stock isActive`) plus its id. -/
structure Product where
  pid : Nat
  name : String
  price : ℚ
  stock : Int
  isActive : Bool
  deriving Repr, DecidableEq

/-- A cart line: product reference and quantity. -/
structure CartItem where
  productId : Nat
  quantity : Nat
  deriving Repr, DecidableEq

/-- A wallet ledger transaction (type is `"topup"` or `"purchase"`). -/
structure Txn where
  ttype : String
  amount : ℚ
  description : String
  tstatus : String
  deriving Repr, DecidableEq

/-- Per-user wallet: cached balance plus append-only transaction list
(`user.wallet` in the User model; transactions are pushed at the end). -/
structure Wallet where
  balance : ℚ
  transactions : List Txn
  deriving Repr, DecidableEq

/-- The five shipping-address fields as stored on an order. -/
structure ShippingAddress where
  saName : String
  saAddress : String
  saCity : String
  saPostalCode : String
  saPhone : String
  deriving Repr, DecidableEq

/-- The shipping-address part of the request body: each field may be
absent (`none`, i.e. `undefined` in JS) or a string. -/
structure ShippingInput where
  siName : Option String
  siAddress : Option String
  siCity : Option String
  siPostalCode : Option String
  siPhone : Option String
  deriving Repr, DecidableEq

/-- An order line snapshot: product id, quantity, unit price captured
at purchase time (`orderItems.push {product, quantity, price}`). -/
structure OrderItem where
  product : Nat
  quantity : Nat
  price : ℚ
  deriving Repr, DecidableEq

/-- Order status enum (`pending|processing|shipped|delivered|cancelled`). -/
inductive OrderStatus where
  | pending | processing | shipped | delivered | cancelled
  deriving Repr, DecidableEq

/-- A persisted order. `status` is filled by the Order schema default.
Modelled from the spec: the Order model file is not in the sources; the
spec's data model gives status default `pending` and a unique
human-facing `orderNumber`; `trackingNumber` and `notes` are plain
operator-mutable strings. -/
structure Order where
  oid : Nat
  user : Nat
  orderNumber : String
  items : List OrderItem
  shippingAddress : ShippingAddress
  paymentMethod : String
  subtotal : ℚ
  tax : ℚ
  shipping : ℚ
  total : ℚ
  paymentStatus : String
  status : OrderStatus
  trackingNumber : String
  notes : String
  deriving Repr, DecidableEq

/-- A wallet top-up request (status is `"pending"`, `"approved"` or
`"rejected"`). -/
structure TopupReq where
  user : Nat
  amount : ℚ
  paymentMethod : String
  paymentProof : String
  rstatus : String
  adminNotes : String
  deriving Repr, DecidableEq

/-- The store state seen by one user's requests: catalog, that user's
cart and wallet, and the order collection. -/
structure St where
  products : List Product
  cart : List CartItem
  wallet : Wallet
  orders : List Order
  deriving Repr, DecidableEq

/-- `Cart.findOne(...).populate('items.product', ...)`: resolve a cart
line's product reference against the catalog (first match by id). -/
def findProduct (ps : List Product) (pid : Nat) : Option Product :=
  ps.find? (fun p => p.pid = pid)

/-- JS falsiness of an optional string field: absent or empty.
A whitespace-only string is truthy. -/
def falsy : Option String → Bool
  | none => true
  | some s => s = ""

/-- `!name || !address || !city || !postalCode || !phone`. -/
def anyFieldFalsy (s : ShippingInput) : Bool :=
  falsy s.siName || falsy s.siAddress || falsy s.siCity ||
    falsy s.siPostalCode || falsy s.siPhone

/-- JS `String.prototype.trim`: strip leading and trailing
whitespace. -/
def jsTrim (s : String) : String :=
  ⟨((s.data.dropWhile Char.isWhitespace).reverse.dropWhile
      Char.isWhitespace).reverse⟩

/-- The stored address, trimmed as in `name.trim()` etc. -/
def trimmedAddress (s : ShippingInput) : ShippingAddress :=
  { saName := jsTrim (s.siName.getD "")
    saAddress := jsTrim (s.siAddress.getD "")
    saCity := jsTrim (s.siCity.getD "")
    saPostalCode := jsTrim (s.siPostalCode.getD "")
    saPhone := jsTrim (s.siPhone.getD "") }

/-- The per-line validation/accumulation loop (`for (const item of
cart.items)`): reject an unresolved or inactive product, reject a line
whose quantity exceeds stock, otherwise accumulate the subtotal and the
order-item snapshot.  Returns the first failure message or the final
`(subtotal, orderItems)`. -/
def validateItems (ps : List Product) :
    List CartItem → ℚ → List OrderItem → Except String (ℚ × List OrderItem)
  | [], subtotal, acc => .ok (subtotal, acc)
  | item :: rest, subtotal, acc =>
    match findProduct ps item.productId with
    | none => .error "Product Unknown is no longer available"
    | some p =>
      if !p.isActive then
        .error ("Product " ++ p.name ++ " is no longer available")
      else if p.stock < (item.quantity : Int) then
        .error ("Insufficient stock for " ++ p.name ++ ". Available: " ++
          toString p.stock ++ ", Requested: " ++ toString item.quantity)
      else
        validateItems ps rest (subtotal + p.price * (item.quantity : ℚ))
          (acc ++ [{ product := p.pid, quantity := item.quantity, price := p.price }])

/-- `tax = subtotal * 0.08`. -/
def taxOf (subtotal : ℚ) : ℚ := subtotal * (8 / 100)

/-- `shipping = subtotal > 50 ? 0 : 10`. -/
def shippingOf (subtotal : ℚ) : ℚ := if subtotal > 50 then 0 else 10

/-- Outcome of POST /orders: a 400 with its message, or 201 with the
created order. -/
inductive CheckoutResult where
  | badRequest (message : String)
  | created (o : Order)
  deriving Repr, DecidableEq

/-- The read/validation phase of POST /orders (everything before the
first write, lines 16–106 of `orders.js`): address checks, cart
emptiness, the per-line loop, totals, and the balance check.  Produces
the order document to be saved, or the 400 message.  `orderNumber` and
`oid` — modelled from the spec: generated by the Order model (not in
the sources) as a fresh human-facing number. -/
def checkoutDecide (body : Option ShippingInput) (st : St) :
    Except String Order :=
  match body with
  | none => .error "Shipping address is required"
  | some sIn =>
    if anyFieldFalsy sIn then
      .error "All shipping address fields are required"
    else if st.cart.isEmpty then
      .error "Cart is empty"
    else
      match validateItems st.products st.cart 0 [] with
      | .error m => .error m
      | .ok (subtotal, orderItems) =>
        let tax := taxOf subtotal
        let shipping := shippingOf subtotal
        let total := subtotal + tax + shipping
        if st.wallet.balance < total then
          .error ("Insufficient wallet balance. Required: $" ++
            toString total ++ ", Available: $" ++ toString st.wallet.balance)
        else
          .ok { oid := st.orders.length
                user := 0
                orderNumber := "ORD-" ++ toString (st.orders.length + 1)
                items := orderItems
                shippingAddress := trimmedAddress sIn
                paymentMethod := "wallet"
                subtotal := subtotal
                tax := tax
                shipping := shipping
                total := total
                paymentStatus := "paid"
                status := .pending
                trackingNumber := ""
                notes := "" }

/-- The `purchase` ledger transaction pushed by the checkout. -/
def purchaseTxn (o : Order) : Txn :=
  { ttype := "purchase", amount := -o.total
    description := "Order payment - #" ++ o.orderNumber
    tstatus := "completed" }

/-- `Product.findByIdAndUpdate(id, {$inc: {stock: d}})`: a server-side
relative increment on every catalog entry with that id. -/
def incStock (ps : List Product) (pid : Nat) (d : Int) : List Product :=
  ps.map (fun p => if p.pid = pid then { p with stock := p.stock + d } else p)

/-- The stock-decrement loop of the checkout: one `$inc` of
`-quantity` per ordered line. -/
def decStock (ps : List Product) (items : List OrderItem) : List Product :=
  items.foldl (fun acc it => incStock acc it.product (-(it.quantity : Int))) ps

/-- The write phase of POST /orders (lines 110–137): insert the order,
overwrite the user document with the debited wallet (balance and
transaction list as computed from the wallet snapshot `w` read during
validation), `$inc` each product's stock, clear the cart.  In the
sequential case `w` is the current wallet; under interleaving it is the
stale copy the request holds in memory. -/
def checkoutApplyWith (o : Order) (w : Wallet) (st : St) : St :=
  { products := decStock st.products o.items
    cart := []
    wallet := { balance := w.balance - o.total
                transactions := w.transactions ++ [purchaseTxn o] }
    orders := st.orders ++ [o] }

/-- POST /orders, one request run to completion without interleaving:
decide, then apply the writes against the state the reads saw. -/
def placeOrder (body : Option ShippingInput) (st : St) : CheckoutResult × St :=
  match checkoutDecide body st with
  | .error m => (.badRequest m, st)
  | .ok o => (.created o, checkoutApplyWith o st.wallet st)

/-- GET /wallet: `User.findById(req.user._id).select('wallet')` then
`res.json(user.wallet)` — the stored balance and the stored transaction
array, with no sorting applied. -/
def getWallet (st : St) : Wallet := st.wallet

/-- A list of transactions is in reverse-chronological order for an
append-only ledger when it lists the most recently appended first,
i.e. it is the reverse of the stored append order. -/
def revChronOf (stored : List Txn) (returned : List Txn) : Prop :=
  returned = stored.reverse

/-- The wallet-ledger invariant: the cached balance equals the sum of
all transaction amounts. -/
def walletInv (w : Wallet) : Prop :=
  w.balance = (w.transactions.map Txn.amount).sum

/-- Outcome of PUT /wallet/admin/topup-requests/:id (after the 404
lookup, which is outside this per-request function). -/
inductive TopupResult where
  | badRequest (message : String)
  | ok (request : TopupReq)
  deriving Repr, DecidableEq

/-- Credit the wallet for an approved top-up: `balance += amount` and
push the `topup` transaction whose description embeds the payment
method. -/
def creditTopup (r : TopupReq) (w : Wallet) : Wallet :=
  { balance := w.balance + r.amount
    transactions := w.transactions ++
      [{ ttype := "topup", amount := r.amount
         description := "Wallet top-up approved - " ++ r.paymentMethod
         tstatus := "completed" }] }

/-- PUT /wallet/admin/topup-requests/:id on a found request `r` of the
wallet owner `w`: the express-validator gate (`status` must be
`approved` or `rejected`), the pending guard, the status/notes update,
and the wallet credit on approval only. -/
def processTopup (newStatus : String) (adminNotes : Option String)
    (r : TopupReq) (w : Wallet) : TopupResult × TopupReq × Wallet :=
  if newStatus ≠ "approved" ∧ newStatus ≠ "rejected" then
    (.badRequest "Validation failed", r, w)
  else if r.rstatus ≠ "pending" then
    (.badRequest "Request has already been processed", r, w)
  else
    let r' : TopupReq :=
      { r with rstatus := newStatus, adminNotes := adminNotes.getD "" }
    if newStatus = "approved" then
      (.ok r', r', creditTopup r w)
    else
      (.ok r', r', w)

/-- Body of PUT /admin/orders/:id: `{status?, trackingNumber?, notes?}`.
`status` is `some` only for a truthy value that passes the schema enum
validator (`runValidators: true`); `trackingNumber` and `notes` are set
whenever not `undefined`. -/
structure OrderUpdate where
  ustatus : Option OrderStatus
  utrackingNumber : Option String
  unotes : Option String
  deriving Repr, DecidableEq

/-- The `updateData` applied by `Order.findByIdAndUpdate`: at most the
three operator-mutable fields. -/
def applyOrderUpdate (b : OrderUpdate) (o : Order) : Order :=
  { o with
    status := b.ustatus.getD o.status
    trackingNumber := b.utrackingNumber.getD o.trackingNumber
    notes := b.unotes.getD o.notes }

/-- Outcome of PUT /admin/orders/:id. -/
inductive AdminResult where
  | notFound
  | ok (o : Order)
  deriving Repr, DecidableEq

/-- `Order.findByIdAndUpdate(req.params.id, updateData, ...)` over the
order collection: 404 when no order has the id, otherwise update that
order in place.  Catalog, cart and wallet are not touched. -/
def updateOrderRoute (oid : Nat) (b : OrderUpdate) (st : St) :
    AdminResult × St :=
  match st.orders.find? (fun o => o.oid = oid) with
  | none => (.notFound, st)
  | some o =>
    (.ok (applyOrderUpdate b o),
     { st with orders :=
        st.orders.map (fun q => if q.oid = oid then applyOrderUpdate b q else q) })

/-- Current stock of the product with a given id (0 when absent). -/
def stockOf (ps : List Product) (pid : Nat) : Int :=
  match findProduct ps pid with
  | some p => p.stock
  | none => 0

/-- Total quantity ordered for one product id across the order lines. -/
def qtyOf (items : List OrderItem) (pid : Nat) : Nat :=
  (items.filter (fun it => it.product = pid)).map OrderItem.quantity |>.sum

/-- Price-times-quantity sum over the captured order lines. -/
def itemsSum (its : List OrderItem) : ℚ :=
  (its.map (fun it => it.price * (it.quantity : ℚ))).sum

/-- Price-times-quantity sum over the cart at current catalog prices. -/
def cartSubtotal (ps : List Product) (cart : List CartItem) : ℚ :=
  (cart.map (fun c =>
    match findProduct ps c.productId with
    | some p => p.price * (c.quantity : ℚ)
    | none => 0)).sum

/-! ### Concrete states used by witnesses and counterexamples -/

/-- A complete shipping-address body. -/
def goodBody : Option ShippingInput :=
  some { siName := some "A", siAddress := some "B", siCity := some "C"
         siPostalCode := some "D", siPhone := some "E" }

/-- The spec's worked scenario: price 25, quantity 3, balance 100. -/
def sampleSt : St :=
  { products := [{ pid := 1, name := "Widget", price := 25, stock := 5, isActive := true }]
    cart := [{ productId := 1, quantity := 3 }]
    wallet := { balance := 100, transactions := [] }
    orders := [] }

/-- The order the worked scenario creates. -/
def sampleOrder : Order :=
  { oid := 0, user := 0, orderNumber := "ORD-1"
    items := [{ product := 1, quantity := 3, price := 25 }]
    shippingAddress := { saName := "A", saAddress := "B", saCity := "C"
                         saPostalCode := "D", saPhone := "E" }
    paymentMethod := "wallet", subtotal := 75, tax := 6, shipping := 0
    total := 81, paymentStatus := "paid", status := .pending
    trackingNumber := "", notes := "" }

/-- A body whose name field is a single space: truthy in JS, empty
after trimming. -/
def wsBody : Option ShippingInput :=
  some { siName := some " ", siAddress := some "B", siCity := some "C"
         siPostalCode := some "D", siPhone := some "E" }

/-- A cart whose first line is understocked and whose second line's
product is inactive. -/
def mixSt : St :=
  { products := [{ pid := 1, name := "A", price := 5, stock := 1, isActive := true },
                 { pid := 2, name := "B", price := 5, stock := 10, isActive := false }]
    cart := [{ productId := 1, quantity := 2 }, { productId := 2, quantity := 1 }]
    wallet := { balance := 100, transactions := [] }
    orders := [] }

/-- One product with stock 1, a cart requesting quantity 1, ample
balance: the state both concurrent checkouts read. -/
def raceSt : St :=
  { products := [{ pid := 1, name := "W", price := 10, stock := 1, isActive := true }]
    cart := [{ productId := 1, quantity := 1 }]
    wallet := { balance := 100, transactions := [] }
    orders := [] }

/-- The order either racing checkout decides to place. -/
def raceOrder : Order :=
  { oid := 0, user := 0, orderNumber := "ORD-1"
    items := [{ product := 1, quantity := 1, price := 10 }]
    shippingAddress := { saName := "A", saAddress := "B", saCity := "C"
                         saPostalCode := "D", saPhone := "E" }
    paymentMethod := "wallet", subtotal := 10, tax := 4 / 5, shipping := 10
    total := 104 / 5, paymentStatus := "paid", status := .pending
    trackingNumber := "", notes := "" }

/-- The end state of the racy schedule on `raceSt`: both requests run
their write-free validation phase against `raceSt` (every step of it is
an `await`ed read, so both can complete before either write), then both
run their write phase, each with the wallet snapshot it read. -/
def raceFinal : St :=
  checkoutApplyWith raceOrder raceSt.wallet
    (checkoutApplyWith raceOrder raceSt.wallet raceSt)

/-- A pending top-up request. -/
def req1 : TopupReq :=
  { user := 0, amount := 50, paymentMethod := "paypal", paymentProof := "x"
    rstatus := "pending", adminNotes := "" }

/-- A one-transaction wallet satisfying the ledger invariant. -/
def w1 : Wallet :=
  { balance := 5, transactions := [{ ttype := "topup", amount := 5
                                     description := "a", tstatus := "completed" }] }

/-- A delivered order sitting in the store. -/
def deliveredOrder : Order :=
  { sampleOrder with oid := 7, status := .delivered }

/-- A state holding `deliveredOrder`. -/
def deliveredSt : St :=
  { sampleSt with orders := [deliveredOrder] }

/-- `sampleSt` with the cart emptied. -/
def emptyCartSt : St :=
  { sampleSt with cart := [] }

/-- The state after the worked scenario's checkout. -/
def sampleSt' : St :=
  { products := [{ pid := 1, name := "Widget", price := 25, stock := 2, isActive := true }]
    cart := []
    wallet := { balance := 19
                transactions := [{ ttype := "purchase", amount := -81
                                   description := "Order payment - #ORD-1"
                                   tstatus := "completed" }] }
    orders := [sampleOrder] }

/-- The order created from `wsBody`: the whitespace-only name is
stored trimmed to the empty string. -/
def wsOrder : Order :=
  { sampleOrder with shippingAddress :=
      { sampleOrder.shippingAddress with saName := "" } }

/-- The state after the `wsBody` checkout. -/
def wsSt' : St :=
  { sampleSt' with orders := [wsOrder] }

/-- A body with an empty-string (falsy) name field. -/
def emptyFieldBody : Option ShippingInput :=
  some { siName := some "", siAddress := some "B", siCity := some "C"
         siPostalCode := some "D", siPhone := some "E" }

/-- The inactive product of `mixSt`. -/
def prodB : Product :=
  { pid := 2, name := "B", price := 5, stock := 10, isActive := false }

/-- A state whose wallet ledger already holds one transaction. -/
def stWithTx : St :=
  { products := [], cart := []
    wallet := { balance := 5
                transactions := [{ ttype := "topup", amount := 5
                                   description := "first", tstatus := "completed" }] }
    orders := [] }

/-- `stWithTx` after an admin approves `req1`: the new `topup`
transaction is appended at the tail of the ledger. -/
def stAfterTopup : St :=
  { stWithTx with wallet := (processTopup "approved" none req1 stWithTx.wallet).2.2 }

/-! ### Inversion and bookkeeping lemmas -/

/-- A 201 outcome of `placeOrder` comes from a successful decision
phase, and the new state is the write phase applied to the read
state. -/
theorem placeOrder_created_inv {body : Option ShippingInput} {st : St}
    {o : Order} {st' : St} (h : placeOrder body st = (.created o, st')) :
    checkoutDecide body st = .ok o ∧ st' = checkoutApplyWith o st.wallet st := by
  unfold placeOrder at h
  cases hd : checkoutDecide body st with
  | error m => rw [hd] at h; simp at h
  | ok o' =>
    rw [hd] at h
    simp only [Prod.mk.injEq, CheckoutResult.created.injEq] at h
    obtain ⟨rfl, h2⟩ := h
    exact ⟨rfl, h2.symm⟩

/-- A failed decision phase leaves `placeOrder` with the 400 message
and the state untouched. -/
theorem placeOrder_error_inv {body : Option ShippingInput} {st : St}
    {m : String} (h : checkoutDecide body st = .error m) :
    placeOrder body st = (.badRequest m, st) := by
  unfold placeOrder
  rw [h]

/-- Full inversion of a successful decision phase: the structure of
the order document it produces. -/
theorem checkoutDecide_ok_inv {body : Option ShippingInput} {st : St} {o : Order}
    (h : checkoutDecide body st = .ok o) :
    ∃ sIn sub its, body = some sIn ∧ anyFieldFalsy sIn = false ∧
      st.cart.isEmpty = false ∧
      validateItems st.products st.cart 0 [] = .ok (sub, its) ∧
      ¬ st.wallet.balance < sub + taxOf sub + shippingOf sub ∧
      o = { oid := st.orders.length, user := 0
            orderNumber := "ORD-" ++ toString (st.orders.length + 1)
            items := its, shippingAddress := trimmedAddress sIn
            paymentMethod := "wallet", subtotal := sub, tax := taxOf sub
            shipping := shippingOf sub
            total := sub + taxOf sub + shippingOf sub
            paymentStatus := "paid", status := .pending
            trackingNumber := "", notes := "" } := by
  unfold checkoutDecide at h
  cases body with
  | none => simp at h
  | some sIn =>
    by_cases h1 : anyFieldFalsy sIn = true
    · simp [h1] at h
    · by_cases h2 : st.cart.isEmpty = true
      · simp [h1, h2] at h
      · cases hv : validateItems st.products st.cart 0 [] with
        | error m => simp [h1, h2, hv] at h
        | ok r =>
          obtain ⟨sub, its⟩ := r
          simp only [h1, h2, hv, Bool.false_eq_true, if_false] at h
          by_cases h3 : st.wallet.balance < sub + taxOf sub + shippingOf sub
          · simp [h3] at h
          · simp only [h3, if_false] at h
            exact ⟨sIn, sub, its, rfl, by simpa using h1, by simpa using h2,
              rfl, h3, (Except.ok.injEq _ _).mp h |>.symm⟩

/-- The populate lookup returns a document with the looked-up id. -/
theorem findProduct_pid {ps : List Product} {pid : Nat} {p : Product}
    (h : findProduct ps pid = some p) : p.pid = pid := by
  unfold findProduct at h
  simpa using List.find?_some h

/-- Invariants of the per-line loop: the accumulated subtotal tracks
both the captured lines and the cart at current prices, the captured
lines mirror the cart's (product, quantity) pairs, and every captured
price is the named product's current price. -/
theorem validateItems_ok_inv {ps : List Product} :
    ∀ (rest : List CartItem) (s : ℚ) (acc : List OrderItem)
      (sub : ℚ) (its : List OrderItem),
      validateItems ps rest s acc = .ok (sub, its) →
      sub - itemsSum its = s - itemsSum acc ∧
      sub = s + cartSubtotal ps rest ∧
      its.map (fun it => (it.product, it.quantity))
        = acc.map (fun it => (it.product, it.quantity))
          ++ rest.map (fun c => (c.productId, c.quantity)) ∧
      (∀ it ∈ its, it ∈ acc ∨
        ∃ p, findProduct ps it.product = some p ∧ it.price = p.price)
  | [], s, acc, sub, its, h => by
    simp only [validateItems, Except.ok.injEq, Prod.mk.injEq] at h
    obtain ⟨rfl, rfl⟩ := h
    exact ⟨by ring, by simp [cartSubtotal], by simp,
      fun it hit => Or.inl hit⟩
  | item :: rest, s, acc, sub, its, h => by
    rw [validateItems] at h
    cases hf : findProduct ps item.productId with
    | none => rw [hf] at h; simp at h
    | some p =>
      rw [hf] at h
      by_cases hact : p.isActive
      · by_cases hstk : p.stock < (item.quantity : Int)
        · simp [hact, hstk] at h
        · simp only [hact, Bool.not_true, Bool.false_eq_true, if_false,
            hstk, if_false] at h
          have hpid : p.pid = item.productId := findProduct_pid hf
          obtain ⟨ih1, ih2, ih3, ih4⟩ := validateItems_ok_inv rest
            (s + p.price * (item.quantity : ℚ))
            (acc ++ [{ product := p.pid, quantity := item.quantity,
                       price := p.price }]) sub its h
          refine ⟨?_, ?_, ?_, ?_⟩
          · rw [ih1]
            simp only [itemsSum, List.map_append, List.sum_append,
              List.map_cons, List.map_nil, List.sum_cons, List.sum_nil]
            ring
          · rw [ih2]
            simp only [cartSubtotal, List.map_cons, List.sum_cons, hf]
            ring
          · rw [ih3]
            simp [hpid]
          · intro it hit
            rcases ih4 it hit with hacc | hp
            · rcases List.mem_append.mp hacc with hacc' | hnew
              · exact Or.inl hacc'
              · right
                have : it = { product := p.pid, quantity := item.quantity,
                              price := p.price } := by simpa using hnew
                subst this
                exact ⟨p, by simpa [hpid] using hf, rfl⟩
            · exact Or.inr hp
      · simp [hact] at h

/-- `$inc` commutes with the populate lookup: the found document is
the modified one exactly when its id matches. -/
theorem findProduct_incStock (ps : List Product) (pid pid' : Nat) (d : Int) :
    findProduct (incStock ps pid d) pid'
      = (findProduct ps pid').map
          (fun p => if p.pid = pid then { p with stock := p.stock + d } else p) := by
  unfold findProduct incStock
  rw [List.find?_map]
  have hpred : ((fun p => decide (p.pid = pid')) ∘
      fun p => if p.pid = pid then { p with stock := p.stock + d } else p)
        = (fun p : Product => decide (p.pid = pid')) := by
    funext q
    by_cases hq : q.pid = pid <;> simp [Function.comp, hq]
  rw [hpred]

/-- Effect of one `$inc` on the stock read of any product. -/
theorem stockOf_incStock (ps : List Product) (pid pid' : Nat) (d : Int) :
    stockOf (incStock ps pid d) pid'
      = stockOf ps pid' +
          (if pid' = pid ∧ (findProduct ps pid').isSome then d else 0) := by
  unfold stockOf
  rw [findProduct_incStock]
  cases hf : findProduct ps pid' with
  | none => simp
  | some p =>
    have hpid : p.pid = pid' := findProduct_pid hf
    by_cases h : pid' = pid <;> simp [hpid, h]

/-- Splitting the ordered quantity of a product over a cons. -/
theorem qtyOf_cons (it : OrderItem) (rest : List OrderItem) (pid : Nat) :
    qtyOf (it :: rest) pid
      = (if it.product = pid then it.quantity else 0) + qtyOf rest pid := by
  by_cases h : it.product = pid <;> simp [qtyOf, List.filter_cons, h]

/-- The stock-decrement loop subtracts exactly the ordered quantity
from every product present in the catalog. -/
theorem stockOf_decStock :
    ∀ (items : List OrderItem) (ps : List Product) (pid : Nat),
      (findProduct ps pid).isSome →
      stockOf (decStock ps items) pid
        = stockOf ps pid - (qtyOf items pid : Int)
  | [], ps, pid, _ => by simp [decStock, qtyOf]
  | it :: rest, ps, pid, h => by
    have hpres : (findProduct (incStock ps it.product (-(it.quantity : Int))) pid).isSome := by
      rw [findProduct_incStock]
      simpa using h
    have ih := stockOf_decStock rest
      (incStock ps it.product (-(it.quantity : Int))) pid hpres
    have hstep := stockOf_incStock ps it.product pid (-(it.quantity : Int))
    have hcons : decStock ps (it :: rest)
        = decStock (incStock ps it.product (-(it.quantity : Int))) rest := rfl
    rw [hcons, ih, hstep, qtyOf_cons]
    by_cases hpp : it.product = pid
    · simp [hpp, h]
      ring
    · have : ¬ (pid = it.product) := fun hc => hpp hc.symm
      simp [hpp, this]

/-! ### Claim theorems -/

/-- C1: every successful POST /orders computes amounts by the fixed
policy — subtotal is the sum over cart lines of the product's current
price times the line quantity (equivalently, the sum over the captured
order lines of captured price times quantity), tax is `subtotal *
0.08`, shipping is 0 when subtotal > 50 and 10 otherwise (so 10 at
exactly 50), and the stored total is subtotal + tax + shipping. -/
theorem checkout_totals_policy (body : Option ShippingInput) (st : St)
    (o : Order) (st' : St) (h : placeOrder body st = (.created o, st')) :
    o.subtotal = itemsSum o.items ∧
    o.subtotal = cartSubtotal st.products st.cart ∧
    o.tax = o.subtotal * (8 / 100) ∧
    o.shipping = (if o.subtotal > 50 then 0 else 10) ∧
    (o.subtotal = 50 → o.shipping = 10) ∧
    o.total = o.subtotal + o.tax + o.shipping := by
  obtain ⟨hd, -⟩ := placeOrder_created_inv h
  obtain ⟨sIn, sub, its, -, -, -, hv, -, ho⟩ := checkoutDecide_ok_inv hd
  obtain ⟨h1, h2, -, -⟩ := validateItems_ok_inv st.cart 0 [] sub its hv
  subst ho
  refine ⟨?_, ?_, rfl, rfl, ?_, rfl⟩
  · have h0 : itemsSum ([] : List OrderItem) = 0 := by simp [itemsSum]
    rw [h0] at h1
    show sub = itemsSum its
    linarith
  · simpa using h2
  · intro h50
    show shippingOf sub = 10
    have : (sub : ℚ) = 50 := h50
    simp [shippingOf, this]

/-- C1 witness: the spec's worked scenario (price 25, quantity 3)
satisfies every clause of the totals policy. -/
theorem checkout_totals_policy_witness :
    (placeOrder goodBody sampleSt).1 = .created sampleOrder ∧
    sampleOrder.subtotal = itemsSum sampleOrder.items ∧
    sampleOrder.tax = sampleOrder.subtotal * (8 / 100) ∧
    sampleOrder.total = sampleOrder.subtotal + sampleOrder.tax + sampleOrder.shipping := by
  have hEq : placeOrder goodBody sampleSt = (.created sampleOrder, sampleSt') := by
    simp [placeOrder, checkoutDecide, validateItems, findProduct, taxOf,
      shippingOf, anyFieldFalsy, falsy, goodBody, sampleSt, trimmedAddress, jsTrim,
      sampleOrder, sampleSt', checkoutApplyWith, decStock, incStock, purchaseTxn]
    norm_num
    decide
  have hall := checkout_totals_policy goodBody sampleSt sampleOrder sampleSt' hEq
  exact ⟨by rw [hEq], hall.1, hall.2.2.1, hall.2.2.2.2.2⟩

/-- C2: a successful checkout persists an order with per-line
snapshots (product id and quantity mirroring the cart, unit price the
product's price at purchase time), status `pending`, payment method
`wallet`, payment status `paid`; decrements each catalog product's
stock by exactly the quantity ordered for it; debits the wallet by the
order total while appending a `purchase` transaction of amount
`-total`; and leaves the cart empty. -/
theorem checkout_effects (body : Option ShippingInput) (st : St)
    (o : Order) (st' : St) (h : placeOrder body st = (.created o, st')) :
    o.status = .pending ∧ o.paymentMethod = "wallet" ∧ o.paymentStatus = "paid" ∧
    o.items.map (fun it => (it.product, it.quantity))
      = st.cart.map (fun c => (c.productId, c.quantity)) ∧
    (∀ it ∈ o.items, ∃ p, findProduct st.products it.product = some p ∧
        it.price = p.price) ∧
    (∀ pid, (findProduct st.products pid).isSome →
        stockOf st'.products pid
          = stockOf st.products pid - (qtyOf o.items pid : Int)) ∧
    st'.wallet.balance = st.wallet.balance - o.total ∧
    st'.wallet.transactions = st.wallet.transactions ++ [purchaseTxn o] ∧
    (purchaseTxn o).ttype = "purchase" ∧ (purchaseTxn o).amount = -o.total ∧
    st'.cart = [] ∧
    st'.orders = st.orders ++ [o] := by
  obtain ⟨hd, hst⟩ := placeOrder_created_inv h
  obtain ⟨sIn, sub, its, -, -, -, hv, -, ho⟩ := checkoutDecide_ok_inv hd
  obtain ⟨-, -, h3, h4⟩ := validateItems_ok_inv st.cart 0 [] sub its hv
  subst hst
  refine ⟨?_, ?_, ?_, ?_, ?_, ?_, rfl, rfl, rfl, rfl, rfl, rfl⟩
  · rw [ho]
  · rw [ho]
  · rw [ho]
  · have : o.items = its := by rw [ho]
    rw [this]
    simpa using h3
  · intro it hit
    have : o.items = its := by rw [ho]
    rw [this] at hit
    rcases h4 it hit with hacc | hp
    · simp at hacc
    · exact hp
  · intro pid hp
    show stockOf (decStock st.products o.items) pid = _
    exact stockOf_decStock o.items st.products pid hp

/-- C2 witness: in the worked scenario the created order is pending /
wallet / paid, stock drops from 5 to 2, the balance from 100 to 19
with a −81 purchase transaction appended, and the cart ends empty. -/
theorem checkout_effects_witness :
    sampleOrder.status = .pending ∧
    stockOf sampleSt'.products 1 = stockOf sampleSt.products 1 - 3 ∧
    sampleSt'.wallet.balance = sampleSt.wallet.balance - sampleOrder.total ∧
    sampleSt'.cart = [] := by
  have hEq : placeOrder goodBody sampleSt = (.created sampleOrder, sampleSt') := by
    simp [placeOrder, checkoutDecide, validateItems, findProduct, taxOf,
      shippingOf, anyFieldFalsy, falsy, goodBody, sampleSt, trimmedAddress, jsTrim,
      sampleOrder, sampleSt', checkoutApplyWith, decStock, incStock, purchaseTxn]
    norm_num
    decide
  have hall := checkout_effects goodBody sampleSt sampleOrder sampleSt' hEq
  refine ⟨hall.1, ?_, hall.2.2.2.2.2.2.1, hall.2.2.2.2.2.2.2.2.2.2.1⟩
  have hstock := hall.2.2.2.2.2.1 1 (by decide)
  have hq : (qtyOf sampleOrder.items 1 : Int) = 3 := by decide
  rw [hq] at hstock
  exact hstock

/-- C3 counterexample: in `mixSt` the cart holds an understocked first
line (product A) and an inactive second line (product B).  Checking
the five preconditions in the claim's stated order — all products
active before any quantity-vs-stock comparison — would report the
inactive-product failure for B; the code instead reports the
stock failure for A, because the active and stock checks are
interleaved per cart line. -/
theorem precondition_order_counterexample :
    mixSt.cart.map (fun c => c.productId) = [1, 2] ∧
    findProduct mixSt.products 2 = some prodB ∧
    prodB.isActive = false ∧
    (placeOrder goodBody mixSt).1
      = .badRequest "Insufficient stock for A. Available: 1, Requested: 2" ∧
    (placeOrder goodBody mixSt).1
      ≠ .badRequest ("Product " ++ prodB.name ++ " is no longer available") := by
  refine ⟨by decide, by decide, by decide, ?_, ?_⟩ <;>
    · simp [placeOrder, checkoutDecide, validateItems, findProduct, taxOf,
        shippingOf, anyFieldFalsy, falsy, goodBody, mixSt, prodB]
      decide

/-- C3 (amended): preconditions are checked before any mutation in
the order address → cart-nonempty → per-cart-line (active, then
stock) → balance, each failure being a distinct 400 message; any
failure leaves the state unchanged. -/
theorem placeOrder_preconditions (body : Option ShippingInput) (st : St) :
    (∀ m, (placeOrder body st).1 = .badRequest m → (placeOrder body st).2 = st) ∧
    (body = none →
      placeOrder body st = (.badRequest "Shipping address is required", st)) ∧
    (∀ sIn, body = some sIn → anyFieldFalsy sIn = true →
      placeOrder body st
        = (.badRequest "All shipping address fields are required", st)) ∧
    (∀ sIn, body = some sIn → anyFieldFalsy sIn = false → st.cart = [] →
      placeOrder body st = (.badRequest "Cart is empty", st)) ∧
    (∀ sIn m, body = some sIn → anyFieldFalsy sIn = false → st.cart ≠ [] →
      validateItems st.products st.cart 0 [] = .error m →
      placeOrder body st = (.badRequest m, st)) ∧
    (∀ sIn sub its, body = some sIn → anyFieldFalsy sIn = false → st.cart ≠ [] →
      validateItems st.products st.cart 0 [] = .ok (sub, its) →
      st.wallet.balance < sub + taxOf sub + shippingOf sub →
      placeOrder body st = (.badRequest ("Insufficient wallet balance. Required: $"
        ++ toString (sub + taxOf sub + shippingOf sub) ++ ", Available: $"
        ++ toString st.wallet.balance), st)) := by
  refine ⟨?_, ?_, ?_, ?_, ?_, ?_⟩
  · intro m hm
    unfold placeOrder at *
    cases hd : checkoutDecide body st with
    | error m' => rfl
    | ok o => rw [hd] at hm; simp at hm
  · rintro rfl
    exact placeOrder_error_inv rfl
  · rintro sIn rfl hfal
    exact placeOrder_error_inv (by simp [checkoutDecide, hfal])
  · rintro sIn rfl hfal hcart
    exact placeOrder_error_inv (by simp [checkoutDecide, hfal, hcart])
  · rintro sIn m rfl hfal hcart hv
    have hne : st.cart.isEmpty = false := by
      simpa [List.isEmpty_iff] using hcart
    exact placeOrder_error_inv (by simp [checkoutDecide, hfal, hne, hv])
  · rintro sIn sub its rfl hfal hcart hv hbal
    have hne : st.cart.isEmpty = false := by
      simpa [List.isEmpty_iff] using hcart
    exact placeOrder_error_inv (by simp [checkoutDecide, hfal, hne, hv, hbal])

/-- C3 witness: concrete failures of precondition 1 (no address),
2 (empty cart) and 4 (insufficient stock), each with its message and
an unchanged state. -/
theorem placeOrder_preconditions_witness :
    placeOrder none sampleSt = (.badRequest "Shipping address is required", sampleSt) ∧
    placeOrder goodBody emptyCartSt = (.badRequest "Cart is empty", emptyCartSt) ∧
    placeOrder goodBody mixSt
      = (.badRequest "Insufficient stock for A. Available: 1, Requested: 2", mixSt) := by
  refine ⟨(placeOrder_preconditions none sampleSt).2.1 rfl,
    (placeOrder_preconditions goodBody emptyCartSt).2.2.2.1 _ rfl (by decide) rfl,
    (placeOrder_preconditions goodBody mixSt).2.2.2.2.1 _ _ rfl (by decide)
      (by decide) ?_⟩
  norm_num [validateItems, findProduct, mixSt]
  decide

/-- C4 (refutation): POST /orders performs its four writes as separate
awaited operations with no transaction or conditional update, so under
the schedule in which two concurrent checkouts both finish validation
before either writes, both requests are accepted against a product
with stock 1 and quantity 1 each: the final stock is −1 (not 0), two
paid orders are recorded, yet the wallet holds a single debit (the
second user-document save overwrites the first) — the claimed
atomicity and exactly-one-succeeds outcomes both fail. -/
theorem concurrent_checkout_not_atomic :
    stockOf raceSt.products 1 = 1 ∧
    raceSt.cart = [{ productId := 1, quantity := 1 }] ∧
    checkoutDecide goodBody raceSt = .ok raceOrder ∧
    stockOf raceFinal.products 1 = -1 ∧
    raceFinal.orders.length = 2 ∧
    raceFinal.wallet.transactions.length = 1 ∧
    raceFinal.wallet.balance = raceSt.wallet.balance - raceOrder.total := by
  refine ⟨by decide, by decide, ?_, by decide, by decide, by decide, rfl⟩
  simp [checkoutDecide, validateItems, findProduct, taxOf, shippingOf,
    anyFieldFalsy, falsy, goodBody, raceSt, raceOrder, trimmedAddress, jsTrim]
  norm_num
  decide

/-- C5: the ledger invariant — cached balance equals the sum of all
transaction amounts — is preserved by the checkout's wallet debit and
by top-up processing: each appends a transaction whose amount equals
the balance change it applies. -/
theorem wallet_ledger_invariant :
    (∀ body st o st', placeOrder body st = (.created o, st') →
      walletInv st.wallet → walletInv st'.wallet) ∧
    (∀ ns notes r w res r' w', processTopup ns notes r w = (res, r', w') →
      walletInv w → walletInv w') := by
  constructor
  · intro body st o st' h hw
    obtain ⟨-, hst⟩ := placeOrder_created_inv h
    subst hst
    show walletInv { balance := st.wallet.balance - o.total
                     transactions := st.wallet.transactions ++ [purchaseTxn o] }
    unfold walletInv at *
    simp only [purchaseTxn, List.map_append, List.map_cons, List.map_nil,
      List.sum_append, List.sum_cons, List.sum_nil]
    rw [hw]
    ring
  · intro ns notes r w res r' w' h hw
    unfold processTopup at h
    split_ifs at h with h1 h2 h3 <;>
      simp only [Prod.mk.injEq] at h
    · obtain ⟨-, -, hww⟩ := h
      rw [← hww]; exact hw
    · obtain ⟨-, -, hww⟩ := h
      rw [← hww]; exact hw
    · obtain ⟨-, -, hww⟩ := h
      rw [← hww]
      unfold walletInv creditTopup at *
      simp only [List.map_append, List.map_cons, List.map_nil,
        List.sum_append, List.sum_cons, List.sum_nil]
      rw [hw]
      ring
    · obtain ⟨-, -, hww⟩ := h
      rw [← hww]; exact hw

/-- C5 witness: a concrete wallet satisfying the invariant still
satisfies it after a top-up approval. -/
theorem wallet_ledger_invariant_witness :
    walletInv w1 ∧ walletInv (processTopup "approved" none req1 w1).2.2 := by
  have hw1 : walletInv w1 := by norm_num [walletInv, w1]
  exact ⟨hw1, wallet_ledger_invariant.2 "approved" none req1 w1 _ _ _ rfl hw1⟩

/-- C6: processing a top-up request is guarded by the pending status —
a non-pending request is rejected as already processed with no wallet
change; approving a pending request credits the wallet by exactly the
request amount and appends a `topup` transaction; a second approval of
the same request fails and credits nothing further; a rejection never
changes the wallet. -/
theorem topup_pending_guard :
    (∀ ns notes r w, (ns = "approved" ∨ ns = "rejected") → r.rstatus ≠ "pending" →
      processTopup ns notes r w
        = (.badRequest "Request has already been processed", r, w)) ∧
    (∀ notes r w, r.rstatus = "pending" →
      processTopup "approved" notes r w
        = (.ok { r with rstatus := "approved", adminNotes := notes.getD "" },
           { r with rstatus := "approved", adminNotes := notes.getD "" },
           creditTopup r w) ∧
      (creditTopup r w).balance = w.balance + r.amount ∧
      (creditTopup r w).transactions
        = w.transactions ++
            [{ ttype := "topup", amount := r.amount
               description := "Wallet top-up approved - " ++ r.paymentMethod
               tstatus := "completed" }]) ∧
    (∀ notes notes2 r w, r.rstatus = "pending" →
      processTopup "approved" notes2 (processTopup "approved" notes r w).2.1
          (processTopup "approved" notes r w).2.2
        = (.badRequest "Request has already been processed",
           (processTopup "approved" notes r w).2.1,
           (processTopup "approved" notes r w).2.2)) ∧
    (∀ notes r w, (processTopup "rejected" notes r w).2.2 = w) := by
  refine ⟨?_, ?_, ?_, ?_⟩
  · intro ns notes r w hns hnp
    rcases hns with rfl | rfl <;> simp [processTopup, hnp]
  · intro notes r w hp
    refine ⟨by simp [processTopup, hp], rfl, rfl⟩
  · intro notes notes2 r w hp
    simp [processTopup, hp]
  · intro notes r w
    unfold processTopup
    split_ifs with ha hb hc
    · rfl
    · rfl
    · exact absurd hc (by decide)
    · rfl

/-- C6 witness: approving the pending `req1` credits `w1` once;
re-approving the processed request is rejected and the wallet is left
as after the first approval; rejecting the pending request leaves the
wallet untouched. -/
theorem topup_pending_guard_witness :
    processTopup "approved" none req1 w1
      = (.ok { req1 with rstatus := "approved", adminNotes := "" },
         { req1 with rstatus := "approved", adminNotes := "" },
         creditTopup req1 w1) ∧
    (creditTopup req1 w1).balance = w1.balance + req1.amount ∧
    processTopup "approved" (some "n2")
        (processTopup "approved" none req1 w1).2.1
        (processTopup "approved" none req1 w1).2.2
      = (.badRequest "Request has already been processed",
         (processTopup "approved" none req1 w1).2.1,
         (processTopup "approved" none req1 w1).2.2) ∧
    (processTopup "rejected" none req1 w1).2.2 = w1 := by
  have h2 := topup_pending_guard.2.1 none req1 w1 rfl
  have h3 := topup_pending_guard.2.2.1 none (some "n2") req1 w1 rfl
  exact ⟨h2.1, h2.2.1, h3, topup_pending_guard.2.2.2 none req1 w1⟩

/-- C7 counterexample: `wsBody`'s name field is a single space —
empty after trimming — yet the address validation (a JS falsiness
check on the untrimmed value) accepts it: the checkout succeeds with
the name stored as the empty string, instead of being rejected with a
validation error. -/
theorem whitespace_field_not_rejected :
    jsTrim " " = "" ∧
    (placeOrder wsBody sampleSt).1 = .created wsOrder ∧
    wsOrder.shippingAddress.saName = "" := by
  refine ⟨by decide, ?_, by decide⟩
  have hEq : placeOrder wsBody sampleSt = (.created wsOrder, wsSt') := by
    simp [placeOrder, checkoutDecide, validateItems, findProduct, taxOf,
      shippingOf, anyFieldFalsy, falsy, wsBody, sampleSt, trimmedAddress, jsTrim,
      wsOrder, sampleOrder, wsSt', sampleSt', checkoutApplyWith, decStock,
      incStock, purchaseTxn]
    norm_num
    decide
  rw [hEq]

/-- C7 (amended): an absent shippingAddress is rejected with
"Shipping address is required"; a field that is absent or the empty
string (JS-falsy, checked untrimmed) is rejected with the single
message "All shipping address fields are required", which lists all
five field names rather than identifying the missing one; a
whitespace-only field passes validation, and a successful checkout
stores every field trimmed. -/
theorem address_validation (body : Option ShippingInput) (st : St) :
    (body = none →
      placeOrder body st = (.badRequest "Shipping address is required", st)) ∧
    (∀ sIn, body = some sIn →
      (falsy sIn.siName || falsy sIn.siAddress || falsy sIn.siCity ||
        falsy sIn.siPostalCode || falsy sIn.siPhone) = true →
      placeOrder body st
        = (.badRequest "All shipping address fields are required", st)) ∧
    (∀ sIn o st', body = some sIn → placeOrder body st = (.created o, st') →
      anyFieldFalsy sIn = false ∧ o.shippingAddress = trimmedAddress sIn) := by
  refine ⟨?_, ?_, ?_⟩
  · rintro rfl
    exact placeOrder_error_inv rfl
  · rintro sIn rfl hfal
    exact placeOrder_error_inv (by simp [checkoutDecide, anyFieldFalsy, hfal])
  · rintro sIn o st' rfl h
    obtain ⟨hd, -⟩ := placeOrder_created_inv h
    obtain ⟨sIn', sub, its, hsome, hfal, -, -, -, ho⟩ := checkoutDecide_ok_inv hd
    obtain rfl : sIn' = sIn := by
      injection hsome with h'
      exact h'.symm
    exact ⟨hfal, by rw [ho]⟩

/-- C7 witness: an absent body and an empty-string name field are
each rejected with their messages; the `wsBody` checkout stores the
trimmed (empty) name. -/
theorem address_validation_witness :
    placeOrder none sampleSt = (.badRequest "Shipping address is required", sampleSt) ∧
    placeOrder emptyFieldBody sampleSt
      = (.badRequest "All shipping address fields are required", sampleSt) ∧
    wsOrder.shippingAddress
      = trimmedAddress { siName := some " ", siAddress := some "B"
                         siCity := some "C", siPostalCode := some "D"
                         siPhone := some "E" } := by
  have hEq : placeOrder wsBody sampleSt = (.created wsOrder, wsSt') := by
    simp [placeOrder, checkoutDecide, validateItems, findProduct, taxOf,
      shippingOf, anyFieldFalsy, falsy, wsBody, sampleSt, trimmedAddress, jsTrim,
      wsOrder, sampleOrder, wsSt', sampleSt', checkoutApplyWith, decStock,
      incStock, purchaseTxn]
    norm_num
    decide
  refine ⟨(address_validation none sampleSt).1 rfl,
    (address_validation emptyFieldBody sampleSt).2.1 _ rfl (by decide),
    ((address_validation wsBody sampleSt).2.2 _ wsOrder wsSt' rfl hEq).2⟩

/-- C8: PUT /admin/orders/:id builds its update from at most
`status`, `trackingNumber` and `notes`; for every body and every
order, the item list, the captured prices inside it, the monetary
totals and every other order field are unchanged, both on the single
updated document and across the whole order store. -/
theorem order_core_immutable (b : OrderUpdate) (oid : Nat) (st : St) :
    (∀ o : Order, (applyOrderUpdate b o).items = o.items ∧
      (applyOrderUpdate b o).subtotal = o.subtotal ∧
      (applyOrderUpdate b o).tax = o.tax ∧
      (applyOrderUpdate b o).shipping = o.shipping ∧
      (applyOrderUpdate b o).total = o.total ∧
      (applyOrderUpdate b o).user = o.user ∧
      (applyOrderUpdate b o).orderNumber = o.orderNumber ∧
      (applyOrderUpdate b o).paymentMethod = o.paymentMethod ∧
      (applyOrderUpdate b o).paymentStatus = o.paymentStatus ∧
      (applyOrderUpdate b o).shippingAddress = o.shippingAddress ∧
      (applyOrderUpdate b o).oid = o.oid) ∧
    (updateOrderRoute oid b st).2.orders.map
        (fun o => (o.items, o.subtotal, o.tax, o.shipping, o.total))
      = st.orders.map (fun o => (o.items, o.subtotal, o.tax, o.shipping, o.total)) := by
  constructor
  · intro o
    exact ⟨rfl, rfl, rfl, rfl, rfl, rfl, rfl, rfl, rfl, rfl, rfl⟩
  · unfold updateOrderRoute
    cases st.orders.find? (fun o => o.oid = oid) with
    | none => rfl
    | some o =>
      simp only [List.map_map]
      apply List.map_congr_left
      intro q _
      by_cases hq : q.oid = oid <;> simp [Function.comp, applyOrderUpdate, hq]

/-- C9 counterexample: GET /wallet returns the stored transaction
array unsorted.  The ledger is append-only — in `stAfterTopup` the
top-up transaction was appended after the pre-existing one — yet the
returned history equals the stored (chronological) order, whose head
is the oldest transaction, not its reverse: it is not
reverse-chronological. -/
theorem wallet_history_not_reverse_chronological :
    (getWallet stAfterTopup).transactions = stAfterTopup.wallet.transactions ∧
    stAfterTopup.wallet.transactions
      = [{ ttype := "topup", amount := 5, description := "first"
           tstatus := "completed" },
         { ttype := "topup", amount := 50
           description := "Wallet top-up approved - paypal"
           tstatus := "completed" }] ∧
    ¬ revChronOf stAfterTopup.wallet.transactions
        (getWallet stAfterTopup).transactions := by
  refine ⟨rfl, ?_, ?_⟩
  · show (processTopup "approved" none req1 stWithTx.wallet).2.2.transactions = _
    simp [processTopup, req1, stWithTx, creditTopup]
  · intro hrev
    unfold revChronOf at hrev
    have : (getWallet stAfterTopup).transactions.map Txn.amount
        = (stAfterTopup.wallet.transactions.reverse).map Txn.amount := by
      rw [hrev]
    rw [show (getWallet stAfterTopup).transactions.map Txn.amount = [5, 50] by
          simp [getWallet, stAfterTopup, processTopup, req1, stWithTx, creditTopup],
        show (stAfterTopup.wallet.transactions.reverse).map Txn.amount = [50, 5] by
          simp [stAfterTopup, processTopup, req1, stWithTx, creditTopup]] at this
    have h5 : (5 : ℚ) = 50 := by
      injection this
    norm_num at h5

/-- C9 (amended): GET /wallet returns the stored wallet as-is — the
current balance together with the full transaction history in
append (chronological) order, so the most recent ledger mutation
(checkout debit or top-up credit) is the *last* element, not the
first. -/
theorem getWallet_returns_stored :
    (∀ st : St, getWallet st = st.wallet) ∧
    (∀ notes r w, r.rstatus = "pending" →
      (processTopup "approved" notes r w).2.2.transactions
        = w.transactions ++
            [{ ttype := "topup", amount := r.amount
               description := "Wallet top-up approved - " ++ r.paymentMethod
               tstatus := "completed" }]) ∧
    (∀ body st o st', placeOrder body st = (.created o, st') →
      (getWallet st').transactions
        = (getWallet st).transactions ++ [purchaseTxn o]) := by
  refine ⟨fun _ => rfl, ?_, ?_⟩
  · intro notes r w hp
    simp [processTopup, hp, creditTopup]
  · intro body st o st' h
    obtain ⟨-, hst⟩ := placeOrder_created_inv h
    subst hst
    rfl

/-- C9 witness: in `stAfterTopup` the returned wallet is the stored
one and the approval appended its transaction at the tail. -/
theorem getWallet_returns_stored_witness :
    getWallet stAfterTopup = stAfterTopup.wallet ∧
    (processTopup "approved" none req1 stWithTx.wallet).2.2.transactions
      = stWithTx.wallet.transactions ++
          [{ ttype := "topup", amount := req1.amount
             description := "Wallet top-up approved - " ++ req1.paymentMethod
             tstatus := "completed" }] := by
  exact ⟨getWallet_returns_stored.1 stAfterTopup,
    getWallet_returns_stored.2.1 none req1 stWithTx.wallet rfl⟩

/-- C10: the admin order update imposes no transition constraint —
for every stored order, whatever its current status (including the
terminal `delivered` and `cancelled`), and every status in the enum,
the update succeeds and sets that status; and the route touches
neither the catalog (no restock) nor the wallet (no refund) nor the
cart. -/
theorem admin_status_update_unconstrained (st : St) (oid : Nat)
    (b : OrderUpdate) (o : Order) (s : OrderStatus)
    (hfind : st.orders.find? (fun q => q.oid = oid) = some o)
    (hs : b.ustatus = some s) :
    (updateOrderRoute oid b st).1 = .ok (applyOrderUpdate b o) ∧
    (applyOrderUpdate b o).status = s ∧
    (updateOrderRoute oid b st).2.products = st.products ∧
    (updateOrderRoute oid b st).2.wallet = st.wallet ∧
    (updateOrderRoute oid b st).2.cart = st.cart := by
  unfold updateOrderRoute
  rw [hfind]
  exact ⟨rfl, by simp [applyOrderUpdate, hs], rfl, rfl, rfl⟩

/-- C10 witness: cancelling the already-delivered order 7 succeeds,
sets status `cancelled`, and leaves stock and wallet untouched. -/
theorem admin_status_update_unconstrained_witness :
    deliveredOrder.status = .delivered ∧
    (updateOrderRoute 7 { ustatus := some .cancelled, utrackingNumber := none
                          unotes := none } deliveredSt).1
      = .ok (applyOrderUpdate { ustatus := some .cancelled
                                utrackingNumber := none, unotes := none }
              deliveredOrder) ∧
    (applyOrderUpdate { ustatus := some .cancelled, utrackingNumber := none
                        unotes := none } deliveredOrder).status = .cancelled ∧
    (updateOrderRoute 7 { ustatus := some .cancelled, utrackingNumber := none
                          unotes := none } deliveredSt).2.products
      = deliveredSt.products ∧
    (updateOrderRoute 7 { ustatus := some .cancelled, utrackingNumber := none
                          unotes := none } deliveredSt).2.wallet
      = deliveredSt.wallet := by
  have hall := admin_status_update_unconstrained deliveredSt 7
    { ustatus := some .cancelled, utrackingNumber := none, unotes := none }
    deliveredOrder .cancelled (by decide) rfl
  exact ⟨rfl, hall.1, hall.2.1, hall.2.2.1, hall.2.2.2.1⟩

end Ecom
